import Mathlib

/-!
# Verification development for `walk`: the key-list demo and the TreeView adapter

Shallow embedding of

* `examples/tableview/tableview.go`: `NewPuttyKey`, `PuttyKeysModel` and its
  methods, and the "View Keys" handler of `main`;
* `declarative/treeview.go`: `TreeView.Create`.

Go values are modelled as follows.  The Go type `int` is `Int` (no arithmetic in
the modelled code can overflow on an input that passes the preceding bounds
check), `error` is `Option GoError` (`none` is the nil error), a function value or
pointer that may be nil is an `Option`, and a run-time panic is the `error` case
of `Except Panic`.  Methods with a pointer receiver take the receiver's state and
return the new state.  Calls into the toolkit, the key-file library and the hash
function are arguments of the definitions that use them.
-/

set_option autoImplicit false

namespace Tableview

/-- Value of the Go type `error` when it is not nil. -/
abbrev GoError := String

/-- Run-time panics raised by the modelled code. -/
inductive Panic where
  | indexOutOfRange
  | sliceBoundsOutOfRange
  | unexpectedCol
  | nilDereference
  deriving DecidableEq, Repr

/-- The Go type `byte`. -/
abbrev Byte := Fin 256

/-- The Go type `[16]byte`, the result type of `md5.Sum`. -/
abbrev Digest := { l : List Byte // l.length = 16 }

/-- Dynamic type and the size field of the value returned by `ParseRawPublicKey`,
as far as the type switch of `NewPuttyKey` looks at it; the pointers are not nil. -/
inductive PublicKey where
  /-- A `*rsa.PublicKey` with modulus `N`. -/
  | rsa (N : Int)
  /-- A `*ecdsa.PublicKey`; `BitSize` is `key.Params().BitSize`. -/
  | ecdsa (BitSize : Int)
  /-- A `*dsa.PublicKey` with prime `P`. -/
  | dsa (P : Int)
  /-- Any other dynamic type, identified by its name. -/
  | other (typeName : String)
  deriving DecidableEq, Repr

/-- Number of binary digits of `n`, by halving at most `fuel` times. -/
def bitLenNat : Nat → Nat → Nat
  | 0, _ => 0
  | fuel + 1, n => if n = 0 then 0 else bitLenNat fuel (n / 2) + 1

/-- The method `(*big.Int).BitLen`: the length of the absolute value in bits, 0 for 0. -/
def BitLen (x : Int) : Int := (bitLenNat x.natAbs x.natAbs : Int)

instance {ε α : Type} [DecidableEq ε] [DecidableEq α] : DecidableEq (Except ε α) :=
  fun a b =>
    match a, b with
    | Except.ok x, Except.ok y =>
      if h : x = y then isTrue (congrArg Except.ok h)
      else isFalse (fun h2 => h (Except.ok.inj h2))
    | Except.error x, Except.error y =>
      if h : x = y then isTrue (congrArg Except.error h)
      else isFalse (fun h2 => h (Except.error.inj h2))
    | Except.ok _, Except.error _ => isFalse (fun h => Except.noConfusion h)
    | Except.error _, Except.ok _ => isFalse (fun h => Except.noConfusion h)

namespace putty

/-- The fields of `putty.Key` the program reads, with the results of the two
parse methods the program calls on it. -/
structure Key where
  Algo : String
  Comment : String
  Encryption : String
  PublicKey : List Byte
  /-- The error returned by `ParseRawPrivateKey(nil)`. -/
  rawPrivateErr : Option GoError
  /-- The first result of `ParseRawPublicKey()`; `none` is the nil interface. -/
  rawPublic : Option Tableview.PublicKey
  deriving DecidableEq, Repr

end putty

/-- What `NewPuttyKey` calls outside the program: the key-file library reading a
path, and `crypto/md5`. -/
structure Env where
  NewFromFile : String → Except GoError putty.Key
  md5Sum : List Byte → Digest

structure PuttyKey where
  key : putty.Key
  bitlen : Int
  pubfingerprint : String
  checked : Bool
  deriving DecidableEq, Repr

/-- The call `fmt.Sprintf("%02x", b)` for an unsigned `b`: lowercase hexadecimal digits,
padded with zeros on the left to a width of at least 2. -/
def Sprintf02x (b : Nat) : String :=
  let ds := Nat.toDigits 16 b
  String.mk (List.replicate (2 - ds.length) '0' ++ ds)

/-- Body of the loop `for i, b := range fp` of `NewPuttyKey`; `n` is `len(fp)`. -/
def fingerprintStep (n : Nat) (lsfp : String) (ib : Nat × Byte) : String :=
  let lsfp := lsfp ++ Sprintf02x ib.2.val
  if (ib.1 : Int) < (n : Int) - 1 then lsfp ++ ":" else lsfp

/-- The loop of `NewPuttyKey` that builds `lsfp` from the digest `fp`. -/
def fingerprint (fp : Digest) : String :=
  fp.val.enum.foldl (fingerprintStep 16) ""

/-- The type switch of `NewPuttyKey` on the parsed public key, starting from `-1`. -/
def pubkeylen (pubkey : Option PublicKey) : Int :=
  match pubkey with
  | some (PublicKey.rsa N) => BitLen N
  | some (PublicKey.ecdsa BitSize) => BitSize
  | some (PublicKey.dsa P) => BitLen P
  | _ => -1

def NewPuttyKey (env : Env) (keyfile : String) : Except GoError PuttyKey :=
  match env.NewFromFile keyfile with
  | Except.error err => Except.error err
  | Except.ok puttyKey =>
    if puttyKey.Encryption ≠ "none" then
      Except.error "Keys with passwords are unsuported"
    else
      match puttyKey.rawPrivateErr with
      | some err => Except.error err
      | none =>
        let pubkey := puttyKey.rawPublic
        let lpubkeylen := pubkeylen pubkey
        let fp := env.md5Sum puttyKey.PublicKey
        let lsfp := fingerprint fp
        Except.ok { key := puttyKey, bitlen := lpubkeylen, pubfingerprint := lsfp, checked := false }

/-- Element of the Go type `interface{}` returned by `Value`: a string or an `int`. -/
inductive Cell where
  | str (s : String)
  | int (n : Int)
  deriving DecidableEq, Repr

/-- A notification published through the embedded `walk.TableModelBase`, with the
two arguments of the publishing call. -/
inductive RowsEvent where
  | rowsInserted (first last : Int)
  | rowsRemoved (first last : Int)
  deriving DecidableEq, Repr

/-- State of a `PuttyKeysModel`: the slice `items`, and for the embedded
`walk.TableModelBase` the notifications it has published, oldest first. -/
structure PuttyKeysModel where
  items : List PuttyKey
  published : List RowsEvent
  deriving DecidableEq, Repr

/-- Modelled from the spec: `walk.TableModelBase.PublishRowsInserted`, which is not among
the sources; it emits one change notification carrying the row range it is called with. -/
def PublishRowsInserted (m : PuttyKeysModel) (first last : Int) : PuttyKeysModel :=
  { m with published := m.published ++ [RowsEvent.rowsInserted first last] }

/-- Modelled from the spec: `walk.TableModelBase.PublishRowsRemoved`, which is not among
the sources; it emits one change notification carrying the row range it is called with. -/
def PublishRowsRemoved (m : PuttyKeysModel) (first last : Int) : PuttyKeysModel :=
  { m with published := m.published ++ [RowsEvent.rowsRemoved first last] }

/-- The Go index expression `s[i]`: panics unless `0 <= i < len(s)`. -/
def goIndex {α : Type} (s : List α) (i : Int) : Except Panic α :=
  if 0 ≤ i ∧ i < (s.length : Int) then
    match s[i.toNat]? with
    | some a => Except.ok a
    | none => Except.error Panic.indexOutOfRange
  else Except.error Panic.indexOutOfRange

/-- The Go slice expression `s[:hi]` for `hi` up to `len(s)`.  Go allows `hi` up to
`cap(s)`; the one use, in `RemoveItem`, goes on to evaluate `s[hi+1:]`, which panics for
every `hi >= len(s)`, so for such `hi` the same kind of panic is raised here. -/
def sliceHigh {α : Type} (s : List α) (hi : Int) : Except Panic (List α) :=
  if 0 ≤ hi ∧ hi ≤ (s.length : Int) then Except.ok (s.take hi.toNat)
  else Except.error Panic.sliceBoundsOutOfRange

/-- The Go slice expression `s[lo:]`: panics unless `0 <= lo <= len(s)`. -/
def sliceLow {α : Type} (s : List α) (lo : Int) : Except Panic (List α) :=
  if 0 ≤ lo ∧ lo ≤ (s.length : Int) then Except.ok (s.drop lo.toNat)
  else Except.error Panic.sliceBoundsOutOfRange

/-- The loop of `NewPuttyKeysModel` over the key files. -/
def loadItems (env : Env) : List PuttyKey → List String → List PuttyKey
  | items, [] => items
  | items, lkey :: rest =>
    match NewPuttyKey env lkey with
    | Except.error _ => loadItems env items rest
    | Except.ok litem => loadItems env (items ++ [litem]) rest

def NewPuttyKeysModel (env : Env) (_keyfiles : List String) : PuttyKeysModel :=
  { items := loadItems env [] _keyfiles, published := [] }

def RowCount (m : PuttyKeysModel) : Int := (m.items.length : Int)

def Value (m : PuttyKeysModel) (row col : Int) : Except Panic Cell :=
  match goIndex m.items row with
  | Except.error p => Except.error p
  | Except.ok item =>
    if col = 0 then Except.ok (Cell.str item.key.Algo)
    else if col = 1 then Except.ok (Cell.int item.bitlen)
    else if col = 2 then Except.ok (Cell.str item.pubfingerprint)
    else if col = 3 then Except.ok (Cell.str item.key.Comment)
    else Except.error Panic.unexpectedCol

def Checked (m : PuttyKeysModel) (row : Int) : Except Panic Bool :=
  match goIndex m.items row with
  | Except.error p => Except.error p
  | Except.ok item => Except.ok item.checked

/-- The method `SetChecked`; the second component is the returned `error`, always nil. -/
def SetChecked (m : PuttyKeysModel) (row : Int) (checked : Bool) :
    Except Panic (PuttyKeysModel × Option GoError) :=
  match goIndex m.items row with
  | Except.error p => Except.error p
  | Except.ok item =>
    Except.ok ({ m with items := m.items.set row.toNat { item with checked := checked } }, none)

/-- The method `AddItem`.  Both arguments of `PublishRowsInserted` are `len(m.items)`
read after the `append`. -/
def AddItem (env : Env) (m : PuttyKeysModel) (keyfile : String) : PuttyKeysModel :=
  match NewPuttyKey env keyfile with
  | Except.error _ => m
  | Except.ok item =>
    let m := { m with items := m.items ++ [item] }
    PublishRowsInserted m (m.items.length : Int) (m.items.length : Int)

/-- The method `RemoveItem`.  The two slice expressions are evaluated left to right, each
with its bounds check, before `append` and the assignment to `m.items`; a panic in either
leaves the model as it was.  `itemIndex + 1` is only reached with `itemIndex <= len`, where
it does not overflow. -/
def RemoveItem (m : PuttyKeysModel) (itemIndex : Int) : Except Panic PuttyKeysModel :=
  if itemIndex < 0 then Except.ok m
  else
    match sliceHigh m.items itemIndex with
    | Except.error p => Except.error p
    | Except.ok front =>
      match sliceLow m.items (itemIndex + 1) with
      | Except.error p => Except.error p
      | Except.ok back =>
        let m := { m with items := front ++ back }
        Except.ok (PublishRowsRemoved m itemIndex itemIndex)

/-! ### The form of a fingerprint -/

/-- The lowercase hexadecimal digit of a value below 16 (`'0'` otherwise). -/
def hexChar (d : Nat) : Char :=
  ['0', '1', '2', '3', '4', '5', '6', '7', '8', '9', 'a', 'b', 'c', 'd', 'e', 'f'].getD d '0'

/-- Two-character lowercase hexadecimal rendering of a byte, high digit first. -/
def hexPair (b : Byte) : List Char := [hexChar (b.val / 16), hexChar (b.val % 16)]

/-- The form of a fingerprint of the digest `fp`: 47 characters, the characters at
`3 * i` and `3 * i + 1` are the two lowercase hexadecimal digits of byte `i`, and the
character at `3 * i + 2` is a colon for each of the 15 gaps. -/
def FingerprintForm (fp : Digest) (s : String) : Prop :=
  s.length = 47 ∧
  (∀ i : Fin 16, s.data[3 * i.val]? = (fp.val[i.val]?).map (fun b => hexChar (b.val / 16)) ∧
      s.data[3 * i.val + 1]? = (fp.val[i.val]?).map (fun b => hexChar (b.val % 16))) ∧
  (∀ i : Fin 15, s.data[3 * i.val + 2]? = some ':')

instance (fp : Digest) (s : String) : Decidable (FingerprintForm fp s) := by
  unfold FingerprintForm; infer_instance

/-! ### The dialog of `main` -/

/-- State the "View Keys" handler of `main` and the dialogs' `Closing` handlers act on.
A dialog is identified by the number of dialogs constructed before it. -/
structure DialogState where
  /-- The captured variable `lldldg`; `none` is nil. -/
  lldldg : Option Nat
  /-- The dialogs constructed and not yet closed, oldest first. -/
  dialogs : List Nat
  /-- The number of dialogs constructed so far. -/
  constructed : Nat
  /-- The receivers of the `SetFocus` calls so far, oldest first. -/
  focused : List Nat
  /-- The receivers of the `Show` calls so far, oldest first. -/
  shown : List Nat
  /-- The dialogs whose `Closing` event received the handler, one entry per `Attach`. -/
  closingAttached : List Nat
  deriving DecidableEq, Repr

/-- Modelled from the spec: `Dialog.Create` of the declarative package, which is not among
the sources; on success a new dialog exists and its handle is written into the bind-back
slot `&lldldg`, on failure nothing is left behind.  `succeeds` is the toolkit's outcome. -/
def DialogCreate (succeeds : Bool) (st : DialogState) : DialogState :=
  if succeeds then
    { st with lldldg := some st.constructed,
              dialogs := st.dialogs ++ [st.constructed],
              constructed := st.constructed + 1 }
  else st

/-- The function attached to `viewKeysAction.Triggered()`; `createSucceeds` is the outcome
of the `Create` call, whose error the handler drops. -/
def viewKeysTriggered (createSucceeds : Bool) (st : DialogState) : Except Panic DialogState :=
  let st := match st.lldldg with
    | some d => { st with focused := st.focused ++ [d] }
    | none => st
  let st := DialogCreate createSucceeds st
  match st.lldldg with
  | none => Except.error Panic.nilDereference
  | some d =>
    let st := { st with shown := st.shown ++ [d] }
    Except.ok { st with closingAttached := st.closingAttached ++ [d] }

/-- The user closes dialog `d`: the handler attached to its `Closing` event sets `lldldg`
to nil, and the dialog is gone.  Nothing happens for a `d` that is not open. -/
def dialogClosed (d : Nat) (st : DialogState) : DialogState :=
  if d ∈ st.dialogs then
    { st with lldldg := if d ∈ st.closingAttached then none else st.lldldg,
              dialogs := st.dialogs.erase d }
  else st

/-- What can happen to the dialog: the view action fires, or the user closes a dialog. -/
inductive DialogEvent where
  | view (createSucceeds : Bool)
  | close (d : Nat)
  deriving DecidableEq, Repr

def dialogStep (st : DialogState) (ev : DialogEvent) : Except Panic DialogState :=
  match ev with
  | DialogEvent.view ok => viewKeysTriggered ok st
  | DialogEvent.close d => Except.ok (dialogClosed d st)

/-- Runs the events in order from `st`, stopping at the first panic. -/
def dialogRun : DialogState → List DialogEvent → Except Panic DialogState
  | st, [] => Except.ok st
  | st, ev :: rest =>
    match dialogStep st ev with
    | Except.error p => Except.error p
    | Except.ok st2 => dialogRun st2 rest

/-- The state of `main` when the message loop starts: `lldldg` is nil, no dialog exists. -/
def dialogInit : DialogState :=
  { lldldg := none, dialogs := [], constructed := 0, focused := [], shown := [],
    closingAttached := [] }

/-! ### Sample data -/

/-- An unencrypted RSA key file as the key-file library returns it. -/
def sampleKey : putty.Key :=
  { Algo := "ssh-rsa", Comment := "rsa-key-20190320", Encryption := "none",
    PublicKey := [0, 1, 2], rawPrivateErr := none, rawPublic := some (PublicKey.rsa 5) }

/-- A second key file, of an algorithm outside the three of the type switch. -/
def sampleKeyEd : putty.Key :=
  { Algo := "ssh-ed25519", Comment := "ed-key", Encryption := "none",
    PublicKey := [7], rawPrivateErr := none, rawPublic := some (PublicKey.other "ed25519.PublicKey") }

/-- A digest with bytes `0x00, 0x1f, 0xa0, 0xff, 4, ..., 15`. -/
def sampleDigest : Digest :=
  ⟨[0, 31, 160, 255, 4, 5, 6, 7, 8, 9, 10, 11, 12, 13, 14, 15], rfl⟩

/-- A file system with two loadable key files; every other path fails to load. -/
def sampleEnv : Env :=
  { NewFromFile := fun path =>
      if path = "./ruslan.ppk" then Except.ok sampleKey
      else if path = "./ed.ppk" then Except.ok sampleKeyEd
      else Except.error "open: no such file"
    md5Sum := fun _ => sampleDigest }

/-- The record that `NewPuttyKey` builds from `./ruslan.ppk`. -/
def sampleItem : PuttyKey :=
  { key := sampleKey, bitlen := 3, checked := false,
    pubfingerprint := "00:1f:a0:ff:04:05:06:07:08:09:0a:0b:0c:0d:0e:0f" }

/-- The record that `NewPuttyKey` builds from `./ed.ppk`. -/
def sampleItemEd : PuttyKey :=
  { key := sampleKeyEd, bitlen := -1, checked := false,
    pubfingerprint := "00:1f:a0:ff:04:05:06:07:08:09:0a:0b:0c:0d:0e:0f" }

/-- The model without rows and without published notifications. -/
def emptyModel : PuttyKeysModel := { items := [], published := [] }

end Tableview

namespace Declarative

/-- Value of the Go type `error` when it is not nil. -/
abbrev GoError := String

/-- Identity of a non-nil Go function value used as an event handler. -/
abbrev Handler := Nat

/-- Address of a variable of type `*walk.TreeView`, the non-nil values of `AssignTo`. -/
abbrev Ref := Nat

/-- Contents of the `*walk.TreeView` variables: `none` is nil, `some h` points to the
widget with handle `h`. -/
abbrev Vars := Ref → Option Nat

structure Size where
  Width : Int
  Height : Int
  deriving DecidableEq, Repr

/-- The declarative `Font` value, of which `Create` only passes the address on. -/
structure Font where
  Family : String
  PointSize : Int
  deriving DecidableEq, Repr

/-- The twelve results of `WidgetInfo`. -/
structure WidgetInfo where
  name : String
  disabled : Bool
  hidden : Bool
  font : Font
  minSize : Size
  maxSize : Size
  stretchFactor : Int
  row : Int
  rowSpan : Int
  column : Int
  columnSpan : Int
  contextMenuActions : List Nat
  deriving DecidableEq, Repr

namespace walk

/-- State of a `walk.TreeView` widget as far as `Create` and the shared initialization
reach it: its handle, the common attributes, the bound model, and for each of the three
events the handlers attached to it, in the order of attachment. -/
structure TreeView where
  handle : Nat
  info : Option WidgetInfo
  model : Option Nat
  currentItemChanged : List Handler
  itemCollapsed : List Handler
  itemExpanded : List Handler
  deriving DecidableEq, Repr

end walk

/-- The toolkit calls of `Create` whose outcome the sources do not determine:
`walk.NewTreeView(parent)`, and whether `SetModel` on a widget fails for a model. -/
structure Toolkit where
  NewTreeView : Nat → Except GoError walk.TreeView
  SetModelErr : walk.TreeView → Option Nat → Option GoError

/-- The descriptor; `Model` and the three handlers are `none` when nil. -/
structure TreeView where
  AssignTo : Option Ref
  Name : String
  Disabled : Bool
  Hidden : Bool
  Font : Font
  MinSize : Size
  MaxSize : Size
  StretchFactor : Int
  Row : Int
  RowSpan : Int
  Column : Int
  ColumnSpan : Int
  ContextMenuActions : List Nat
  Model : Option Nat
  OnCurrentItemChanged : Option Handler
  OnItemCollapsed : Option Handler
  OnItemExpanded : Option Handler
  deriving DecidableEq, Repr

def TreeView.WidgetInfo (tv : TreeView) : WidgetInfo :=
  { name := tv.Name, disabled := tv.Disabled, hidden := tv.Hidden, font := tv.Font,
    minSize := tv.MinSize, maxSize := tv.MaxSize, stretchFactor := tv.StretchFactor,
    row := tv.Row, rowSpan := tv.RowSpan, column := tv.Column, columnSpan := tv.ColumnSpan,
    contextMenuActions := tv.ContextMenuActions }

/-- What the function literal passed to `InitWidget` reads and writes: the new widget
`w` and the variables `AssignTo` may point to. -/
structure InitState where
  w : walk.TreeView
  vars : Vars

/-- Modelled from the spec: `(*walk.TreeView).SetModel`, which is not among the sources;
it binds the data model to the widget, or fails and binds nothing. -/
def SetModel (tk : Toolkit) (w : walk.TreeView) (model : Option Nat) :
    Option GoError × walk.TreeView :=
  match tk.SetModelErr w model with
  | some err => (some err, w)
  | none => (none, { w with model := model })

/-- Modelled from the spec: `Attach` on an event of the widget, which is not among the
sources; it registers the callback as one more listener of that event. -/
def Attach (handlers : List Handler) (h : Handler) : List Handler := handlers ++ [h]

/-- Modelled from the spec: `InitWidget`, the shared initialization routine, which is not
among the sources; it applies the descriptor's common attributes to the widget, then runs
the widget's own initialization and returns its error. -/
def InitWidget (d : WidgetInfo) (st : InitState)
    (customInit : InitState → Option GoError × InitState) : Option GoError × InitState :=
  customInit { st with w := { st.w with info := some d } }

/-- The function literal that `Create` passes to `InitWidget`. -/
def createInit (tk : Toolkit) (tv : TreeView) (st : InitState) : Option GoError × InitState :=
  match SetModel tk st.w tv.Model with
  | (some err, w) => (some err, { st with w := w })
  | (none, w) =>
    let w := match tv.OnCurrentItemChanged with
      | some h => { w with currentItemChanged := Attach w.currentItemChanged h }
      | none => w
    let w := match tv.OnItemCollapsed with
      | some h => { w with itemCollapsed := Attach w.itemCollapsed h }
      | none => w
    let w := match tv.OnItemExpanded with
      | some h => { w with itemExpanded := Attach w.itemExpanded h }
      | none => w
    let vars := match tv.AssignTo with
      | some r => Function.update st.vars r (some w.handle)
      | none => st.vars
    (none, { w := w, vars := vars })

/-- Outcome of `Create`: the returned error, the widget `w` if one was created, in its
final state, and the variables. -/
structure CreateResult where
  err : Option GoError
  w : Option walk.TreeView
  vars : Vars

def TreeView.Create (tk : Toolkit) (tv : TreeView) (parent : Nat) (vars : Vars) :
    CreateResult :=
  match tk.NewTreeView parent with
  | Except.error err => { err := some err, w := none, vars := vars }
  | Except.ok w =>
    match InitWidget tv.WidgetInfo { w := w, vars := vars } (createInit tk tv) with
    | (err, st) => { err := err, w := some st.w, vars := st.vars }

/-- The widget at the moment `Create` calls `SetModel` on it: `w` as created, with the
common attributes of `tv` applied. -/
def atSetModel (tv : TreeView) (w : walk.TreeView) : walk.TreeView :=
  { w with info := some tv.WidgetInfo }

/-! ### Sample data -/

/-- A widget as `walk.NewTreeView` returns it: nothing bound, nothing attached. -/
def sampleWidget : walk.TreeView :=
  { handle := 7, info := none, model := none, currentItemChanged := [], itemCollapsed := [],
    itemExpanded := [] }

/-- A toolkit that creates `sampleWidget` and binds every model except model 13. -/
def sampleToolkit : Toolkit :=
  { NewTreeView := fun _ => Except.ok sampleWidget
    SetModelErr := fun _ model => if model = some 13 then some "SetModel failed" else none }

/-- A descriptor with two of the three handlers, a bind-back slot and `model`. -/
def sampleTreeView (model : Option Nat) : TreeView :=
  { AssignTo := some 0, Name := "tree", Disabled := false, Hidden := false,
    Font := { Family := "", PointSize := 0 }, MinSize := { Width := 0, Height := 0 },
    MaxSize := { Width := 0, Height := 0 }, StretchFactor := 0, Row := 0, RowSpan := 0,
    Column := 0, ColumnSpan := 0, ContextMenuActions := [], Model := model,
    OnCurrentItemChanged := some 1, OnItemCollapsed := none, OnItemExpanded := some 3 }

/-- Variables that are all nil. -/
def nilVars : Vars := fun _ => none

end Declarative

/-! ## Theorems -/

namespace Tableview

set_option maxRecDepth 1000000 in
theorem Sprintf02x_byte : ∀ b : Byte, Sprintf02x b.val = String.mk (hexPair b) := by
  decide

theorem list_length_sixteen {α : Type} (l : List α) (h : l.length = 16) :
    ∃ a0 a1 a2 a3 a4 a5 a6 a7 a8 a9 a10 a11 a12 a13 a14 a15,
      l = [a0, a1, a2, a3, a4, a5, a6, a7, a8, a9, a10, a11, a12, a13, a14, a15] := by
  match l, h with
  | [a0, a1, a2, a3, a4, a5, a6, a7, a8, a9, a10, a11, a12, a13, a14, a15], _ =>
    exact ⟨a0, a1, a2, a3, a4, a5, a6, a7, a8, a9, a10, a11, a12, a13, a14, a15, rfl⟩

theorem fingerprint_data (fp : Digest) :
    (fingerprint fp).data = List.intercalate [':'] (fp.val.map hexPair) := by
  obtain ⟨l, hl⟩ := fp
  obtain ⟨a0, a1, a2, a3, a4, a5, a6, a7, a8, a9, a10, a11, a12, a13, a14, a15, rfl⟩ :=
    list_length_sixteen l hl
  simp [fingerprint, List.enum, List.enumFrom, fingerprintStep, Sprintf02x_byte, hexPair,
    List.intercalate]

theorem fingerprint_has_form (fp : Digest) : FingerprintForm fp (fingerprint fp) := by
  have hd := fingerprint_data fp
  obtain ⟨l, hl⟩ := fp
  obtain ⟨a0, a1, a2, a3, a4, a5, a6, a7, a8, a9, a10, a11, a12, a13, a14, a15, rfl⟩ :=
    list_length_sixteen l hl
  simp only [List.map, hexPair, List.intercalate] at hd
  simp at hd
  refine ⟨?_, ?_, ?_⟩
  · rw [String.length, hd]; rfl
  · intro i
    rw [hd]
    fin_cases i <;> simp
  · intro i
    rw [hd]
    fin_cases i <;> simp

theorem size_half (n : Nat) (h : n ≠ 0) : Nat.size n = Nat.size (n / 2) + 1 := by
  have hb : Nat.bit n.bodd n.div2 ≠ 0 := by rw [Nat.bit_decomp]; exact h
  have h2 : Nat.size (Nat.bit n.bodd n.div2) = Nat.succ (Nat.size n.div2) := Nat.size_bit hb
  rw [Nat.bit_decomp, Nat.div2_val] at h2
  exact h2

theorem bitLenNat_eq_size (fuel n : Nat) (h : n ≤ fuel) : bitLenNat fuel n = Nat.size n := by
  induction fuel generalizing n with
  | zero =>
    have h0 : n = 0 := by omega
    subst h0
    simp [bitLenNat]
  | succ k ih =>
    by_cases h0 : n = 0
    · subst h0
      simp [bitLenNat]
    · have hk : n / 2 ≤ k := by omega
      simp [bitLenNat, h0, ih (n / 2) hk, size_half n h0]

/-- The model of `BitLen` is the binary size of the absolute value. -/
theorem BitLen_eq_size (x : Int) : BitLen x = (Nat.size x.natAbs : Int) := by
  simp [BitLen, bitLenNat_eq_size]

theorem NewPuttyKey_ok (env : Env) (keyfile : String) (k : PuttyKey)
    (h : NewPuttyKey env keyfile = Except.ok k) :
    env.NewFromFile keyfile = Except.ok k.key ∧ k.key.Encryption = "none" ∧
    k.key.rawPrivateErr = none ∧ k.bitlen = pubkeylen k.key.rawPublic ∧
    k.pubfingerprint = fingerprint (env.md5Sum k.key.PublicKey) ∧ k.checked = false := by
  unfold NewPuttyKey at h
  cases hf : env.NewFromFile keyfile with
  | error err => simp [hf] at h
  | ok pk =>
    simp only [hf] at h
    by_cases henc : pk.Encryption = "none"
    · cases hp : pk.rawPrivateErr with
      | some err => simp [henc, hp] at h
      | none =>
        simp [henc, hp] at h
        subst h
        simp [henc, hp]
    · simp [henc] at h

/-- C7: for every 16-byte digest the string built by the loop of `NewPuttyKey` has 47
characters: the two lowercase hexadecimal digits of byte `i` at positions `3 * i` and
`3 * i + 1`, and a colon at `3 * i + 2` for each of the 15 gaps; the fingerprint of a
record returned by `NewPuttyKey` is that string for the digest of its public key bytes. -/
theorem fingerprint_form (fp : Digest) (env : Env) (keyfile : String) :
    FingerprintForm fp (fingerprint fp) ∧
    (fingerprint fp).data = List.intercalate [':'] (fp.val.map hexPair) ∧
    (∀ k, NewPuttyKey env keyfile = Except.ok k →
      FingerprintForm (env.md5Sum k.key.PublicKey) k.pubfingerprint) := by
  refine ⟨fingerprint_has_form fp, fingerprint_data fp, fun k h => ?_⟩
  rw [(NewPuttyKey_ok env keyfile k h).2.2.2.2.1]
  exact fingerprint_has_form _

/-- Witness for C7: the sample digest, and the record loaded from `./ruslan.ppk`. -/
theorem fingerprint_form_witness :
    fingerprint sampleDigest = "00:1f:a0:ff:04:05:06:07:08:09:0a:0b:0c:0d:0e:0f" ∧
    FingerprintForm sampleDigest (fingerprint sampleDigest) ∧
    NewPuttyKey sampleEnv "./ruslan.ppk" = Except.ok sampleItem ∧
    FingerprintForm (sampleEnv.md5Sum sampleItem.key.PublicKey) sampleItem.pubfingerprint :=
  ⟨by decide, (fingerprint_form sampleDigest sampleEnv "./ruslan.ppk").1, by decide,
   (fingerprint_form sampleDigest sampleEnv "./ruslan.ppk").2.2 sampleItem (by decide)⟩

/-- C8: a record returned by `NewPuttyKey` holds the key the library read from the path,
and its bit length is `N.BitLen()` for an RSA public key, the curve's `BitSize` for ECDSA,
`P.BitLen()` for DSA, and `-1` for a public key of any other type and for no public key. -/
theorem NewPuttyKey_bitlen (env : Env) (keyfile : String) (k : PuttyKey)
    (h : NewPuttyKey env keyfile = Except.ok k) :
    env.NewFromFile keyfile = Except.ok k.key ∧
    (∀ N, k.key.rawPublic = some (PublicKey.rsa N) → k.bitlen = BitLen N) ∧
    (∀ BitSize, k.key.rawPublic = some (PublicKey.ecdsa BitSize) → k.bitlen = BitSize) ∧
    (∀ P, k.key.rawPublic = some (PublicKey.dsa P) → k.bitlen = BitLen P) ∧
    (∀ typeName, k.key.rawPublic = some (PublicKey.other typeName) → k.bitlen = -1) ∧
    (k.key.rawPublic = none → k.bitlen = -1) := by
  obtain ⟨hf, _, _, hb, _, _⟩ := NewPuttyKey_ok env keyfile k h
  refine ⟨hf, ?_, ?_, ?_, ?_, ?_⟩
  · intro N hN
    rw [hb, hN]; rfl
  · intro B hB
    rw [hb, hB]; rfl
  · intro P hP
    rw [hb, hP]; rfl
  · intro t ht
    rw [hb, ht]; rfl
  · intro hn
    rw [hb, hn]; rfl

/-- Witness for C8: the RSA sample (modulus 5, three bits) and the sample of another type. -/
theorem NewPuttyKey_bitlen_witness :
    NewPuttyKey sampleEnv "./ruslan.ppk" = Except.ok sampleItem ∧
    sampleItem.bitlen = BitLen 5 ∧ BitLen 5 = 3 ∧
    NewPuttyKey sampleEnv "./ed.ppk" = Except.ok sampleItemEd ∧
    sampleItemEd.bitlen = -1 :=
  ⟨by decide,
   (NewPuttyKey_bitlen sampleEnv "./ruslan.ppk" sampleItem (by decide)).2.1 5 rfl,
   by decide, by decide,
   (NewPuttyKey_bitlen sampleEnv "./ed.ppk" sampleItemEd (by decide)).2.2.2.2.1
     "ed25519.PublicKey" rfl⟩

theorem goIndex_of_nonneg {α : Type} (s : List α) (i : Int) (h0 : 0 ≤ i) :
    goIndex s i =
      match s[i.toNat]? with
      | some a => Except.ok a
      | none => Except.error Panic.indexOutOfRange := by
  unfold goIndex
  by_cases h : i < (s.length : Int)
  · simp [h0, h]
  · have hlen : s.length ≤ i.toNat := by omega
    simp [h, List.getElem?_eq_none hlen]

theorem AddItem_of_error (env : Env) (m : PuttyKeysModel) (p : String) (err : GoError)
    (h : NewPuttyKey env p = Except.error err) : AddItem env m p = m := by
  simp [AddItem, h]

theorem AddItem_of_ok (env : Env) (m : PuttyKeysModel) (p : String) (item : PuttyKey)
    (h : NewPuttyKey env p = Except.ok item) :
    AddItem env m p =
      { items := m.items ++ [item],
        published := m.published ++
          [RowsEvent.rowsInserted ((m.items.length : Int) + 1) ((m.items.length : Int) + 1)] } := by
  simp [AddItem, h, PublishRowsInserted]

/-- C1: when loading the path fails, `AddItem` returns the model as it was (same rows, same
row count, nothing published); when loading succeeds, the row count grows by exactly one,
every previous row stays at its index, and the new record is the last row. -/
theorem AddItem_rows (env : Env) (m : PuttyKeysModel) (p : String) :
    (∀ err, NewPuttyKey env p = Except.error err → AddItem env m p = m) ∧
    (∀ item, NewPuttyKey env p = Except.ok item →
      RowCount (AddItem env m p) = RowCount m + 1 ∧
      (AddItem env m p).items = m.items ++ [item] ∧
      (∀ row : Int, 0 ≤ row → row < RowCount m →
        goIndex (AddItem env m p).items row = goIndex m.items row) ∧
      goIndex (AddItem env m p).items (RowCount (AddItem env m p) - 1) = Except.ok item) := by
  refine ⟨fun err h => AddItem_of_error env m p err h, fun item h => ?_⟩
  rw [AddItem_of_ok env m p item h]
  refine ⟨by simp [RowCount], rfl, ?_, ?_⟩
  · intro row h0 h1
    have hlt : row.toNat < m.items.length := by
      unfold RowCount at h1; omega
    rw [goIndex_of_nonneg _ _ h0, goIndex_of_nonneg _ _ h0]
    simp [List.getElem?_append_left hlt]
  · have h0 : (0 : Int) ≤ RowCount
        { items := m.items ++ [item],
          published := m.published ++
            [RowsEvent.rowsInserted ((m.items.length : Int) + 1) ((m.items.length : Int) + 1)] } - 1 := by
      simp [RowCount]
    rw [goIndex_of_nonneg _ _ h0]
    simp [RowCount]

/-- Witness for C1: a path that fails to load and a path that loads, on the empty model. -/
theorem AddItem_rows_witness :
    AddItem sampleEnv emptyModel "./missing.ppk" = emptyModel ∧
    RowCount (AddItem sampleEnv emptyModel "./ruslan.ppk") = RowCount emptyModel + 1 :=
  ⟨(AddItem_rows sampleEnv emptyModel "./missing.ppk").1 "open: no such file" (by decide),
   ((AddItem_rows sampleEnv emptyModel "./ruslan.ppk").2 sampleItem (by decide)).1⟩

/-- C2, the code on a concrete input: on the empty model a path that loads makes
`AddItem` publish the range `(1, 1)`, while the new record is row `0 = RowCount() - 1`;
`Value` and `Checked` at the published index panic, at row 0 they reach the new record. -/
theorem AddItem_publishes_length :
    (AddItem sampleEnv emptyModel "./ruslan.ppk").published = [RowsEvent.rowsInserted 1 1] ∧
    RowCount (AddItem sampleEnv emptyModel "./ruslan.ppk") - 1 = 0 ∧
    (AddItem sampleEnv emptyModel "./ruslan.ppk").items = [sampleItem] ∧
    Value (AddItem sampleEnv emptyModel "./ruslan.ppk") 1 0 = Except.error Panic.indexOutOfRange ∧
    Checked (AddItem sampleEnv emptyModel "./ruslan.ppk") 1 = Except.error Panic.indexOutOfRange ∧
    Value (AddItem sampleEnv emptyModel "./ruslan.ppk") 0 0 = Except.ok (Cell.str "ssh-rsa") ∧
    Checked (AddItem sampleEnv emptyModel "./ruslan.ppk") 0 = Except.ok false := by
  decide

/-- For every index at or past the row count `RemoveItem` panics on a slice bound. -/
theorem RemoveItem_of_ge (m : PuttyKeysModel) (i : Int) (h : RowCount m ≤ i) :
    RemoveItem m i = Except.error Panic.sliceBoundsOutOfRange := by
  unfold RowCount at h
  have h1 : ¬ (i < 0) := by omega
  have h2 : ¬ (i + 1 ≤ (m.items.length : Int)) := by omega
  by_cases h3 : i ≤ (m.items.length : Int)
  · have h4 : (0 : Int) ≤ i := by omega
    simp [RemoveItem, sliceHigh, sliceLow, h1, h2, h3, h4]
  · simp [RemoveItem, sliceHigh, h1, h3]

/-- C3, the code on a concrete input: with one row, both `RemoveItem(1)` and
`RemoveItem(5)` panic on a slice bound, and so does `RemoveItem(0)` on the model without
rows. -/
theorem RemoveItem_past_end_panics :
    RemoveItem { items := [sampleItem], published := [] } 1
      = Except.error Panic.sliceBoundsOutOfRange ∧
    RemoveItem { items := [sampleItem], published := [] } 5
      = Except.error Panic.sliceBoundsOutOfRange ∧
    RemoveItem emptyModel 0 = Except.error Panic.sliceBoundsOutOfRange := by
  decide

/-- C4: for a negative index `RemoveItem` returns normally with the model as it was: same
rows, same row count, nothing published, no panic. -/
theorem RemoveItem_negative (m : PuttyKeysModel) (i : Int) (h : i < 0) :
    RemoveItem m i = Except.ok m := by
  simp [RemoveItem, h]

/-- Witness for C4: index `-1` on a model with one row. -/
theorem RemoveItem_negative_witness :
    ((-1 : Int) < 0) ∧
    RemoveItem { items := [sampleItem], published := [] } (-1)
      = Except.ok { items := [sampleItem], published := [] } :=
  ⟨by decide, RemoveItem_negative { items := [sampleItem], published := [] } (-1) (by decide)⟩

theorem RemoveItem_of_lt (m : PuttyKeysModel) (n : Nat) (h : n < m.items.length) :
    RemoveItem m (n : Int) =
      Except.ok { items := m.items.eraseIdx n,
                  published := m.published ++ [RowsEvent.rowsRemoved n n] } := by
  have h1 : ¬ ((n : Int) < 0) := by omega
  have h2 : (n : Int) ≤ (m.items.length : Int) := by omega
  have h3 : (n : Int) + 1 ≤ (m.items.length : Int) := by omega
  have h4 : (0 : Int) ≤ (n : Int) + 1 := by omega
  have h5 : ((n : Int) + 1).toNat = n + 1 := by omega
  simp [RemoveItem, sliceHigh, sliceLow, h1, h2, h3, h4, h5, PublishRowsRemoved,
    List.eraseIdx_eq_take_drop_succ]

/-- C10: for `0 <= i < RowCount()`, `RemoveItem(i)` returns normally; the row count drops by
exactly one, the rows before `i` keep index and content, each row `j > i` is found at
`j - 1`, and the one notification added is rows-removed with range `(i, i)`. -/
theorem RemoveItem_in_range (m : PuttyKeysModel) (i : Int) (h0 : 0 ≤ i) (h1 : i < RowCount m) :
    ∃ m2, RemoveItem m i = Except.ok m2 ∧
      RowCount m2 = RowCount m - 1 ∧
      m2.items = m.items.eraseIdx i.toNat ∧
      (∀ j : Int, 0 ≤ j → j < i → goIndex m2.items j = goIndex m.items j) ∧
      (∀ j : Int, i < j → j < RowCount m → goIndex m2.items (j - 1) = goIndex m.items j) ∧
      m2.published = m.published ++ [RowsEvent.rowsRemoved i i] := by
  obtain ⟨n, rfl⟩ := Int.eq_ofNat_of_zero_le h0
  have hn : n < m.items.length := by unfold RowCount at h1; omega
  refine ⟨_, RemoveItem_of_lt m n hn, ?_, ?_, ?_, ?_, rfl⟩
  · simp only [RowCount, List.length_eraseIdx_of_lt hn]
    omega
  · simp
  · intro j hj0 hj1
    obtain ⟨k, rfl⟩ := Int.eq_ofNat_of_zero_le hj0
    have hk : k < n := by omega
    rw [goIndex_of_nonneg _ _ hj0, goIndex_of_nonneg _ _ hj0]
    simp [List.getElem?_eraseIdx_of_lt _ _ _ hk]
  · intro j hj0 hj1
    have hjnn : (0 : Int) ≤ j := by omega
    obtain ⟨k, rfl⟩ := Int.eq_ofNat_of_zero_le hjnn
    have hk : n ≤ k - 1 := by omega
    have hk1 : k - 1 + 1 = k := by omega
    have hj2 : (0 : Int) ≤ (k : Int) - 1 := by omega
    have hj3 : ((k : Int) - 1).toNat = k - 1 := by omega
    rw [goIndex_of_nonneg _ _ hjnn, goIndex_of_nonneg _ _ hj2, hj3]
    simp [List.getElem?_eraseIdx_of_ge _ _ _ hk, hk1]

/-- Witness for C10: removing row 0 of a model with two rows. -/
theorem RemoveItem_in_range_witness :
    ∃ m2, RemoveItem { items := [sampleItem, { sampleItem with checked := true }], published := [] } 0
        = Except.ok m2 ∧
      RowCount m2 = 1 ∧ m2.items = [{ sampleItem with checked := true }] ∧
      m2.published = [RowsEvent.rowsRemoved 0 0] := by
  obtain ⟨m2, h, hc, hi, _, _, hp⟩ :=
    RemoveItem_in_range
      { items := [sampleItem, { sampleItem with checked := true }], published := [] } 0
      (by decide) (by decide)
  exact ⟨m2, h, by rw [hc]; decide, by rw [hi]; rfl, by rw [hp]; rfl⟩

/-- Whenever a dialog is tracked and `Create` succeeds, the handler constructs one more
dialog, after focusing the tracked one. -/
theorem viewKeysTriggered_of_open (st : DialogState) (d : Nat) (h : st.lldldg = some d) :
    viewKeysTriggered true st =
      Except.ok { lldldg := some st.constructed,
                  dialogs := st.dialogs ++ [st.constructed],
                  constructed := st.constructed + 1,
                  focused := st.focused ++ [d],
                  shown := st.shown ++ [st.constructed],
                  closingAttached := st.closingAttached ++ [st.constructed] } := by
  simp [viewKeysTriggered, DialogCreate, h]

/-- C9, the code on a concrete input: the view action fired twice, each `Create`
succeeding and no dialog closed in between.  The second run starts with dialog 0 tracked,
focuses it, and still constructs dialog 1: two dialogs are open afterwards and the
tracked reference has moved to the second. -/
theorem viewKeys_twice_two_dialogs :
    dialogRun dialogInit [DialogEvent.view true] =
      Except.ok { lldldg := some 0, dialogs := [0], constructed := 1, focused := [],
                  shown := [0], closingAttached := [0] } ∧
    dialogRun dialogInit [DialogEvent.view true, DialogEvent.view true] =
      Except.ok { lldldg := some 1, dialogs := [0, 1], constructed := 2, focused := [0],
                  shown := [0, 1], closingAttached := [0, 1] } := by
  decide

end Tableview

namespace Declarative

/-- C5: when the widget is created and `SetModel(tv.Model)` on it returns an error, `Create`
returns that error, the handler lists of the three events are those of the widget as
created (nothing attached), and every variable, the target of `AssignTo` included, keeps
its value. -/
theorem Create_of_SetModel_error (tk : Toolkit) (tv : TreeView) (parent : Nat) (vars : Vars)
    (w : walk.TreeView) (err : GoError)
    (hnew : tk.NewTreeView parent = Except.ok w)
    (hset : (SetModel tk (atSetModel tv w) tv.Model).1 = some err) :
    (tv.Create tk parent vars).err = some err ∧
    (tv.Create tk parent vars).vars = vars ∧
    ∃ w2, (tv.Create tk parent vars).w = some w2 ∧
      w2.currentItemChanged = w.currentItemChanged ∧
      w2.itemCollapsed = w.itemCollapsed ∧
      w2.itemExpanded = w.itemExpanded ∧
      w2.model = w.model := by
  have herr : tk.SetModelErr (atSetModel tv w) tv.Model = some err := by
    unfold SetModel at hset
    cases hs : tk.SetModelErr (atSetModel tv w) tv.Model with
    | none => simp [hs] at hset
    | some e => simp [hs] at hset; rw [hset]
  simp [TreeView.Create, hnew, InitWidget, createInit, SetModel, atSetModel] at herr ⊢
  simp [herr]

/-- Witness for C5: model 13, which the sample toolkit refuses to bind. -/
theorem Create_of_SetModel_error_witness :
    ((sampleTreeView (some 13)).Create sampleToolkit 0 nilVars).err = some "SetModel failed" ∧
    ((sampleTreeView (some 13)).Create sampleToolkit 0 nilVars).vars = nilVars :=
  ⟨(Create_of_SetModel_error sampleToolkit (sampleTreeView (some 13)) 0 nilVars sampleWidget
      "SetModel failed" rfl (by decide)).1,
   (Create_of_SetModel_error sampleToolkit (sampleTreeView (some 13)) 0 nilVars sampleWidget
      "SetModel failed" rfl (by decide)).2.1⟩

/-- C6: when the widget is created and `SetModel` succeeds, `Create` returns nil; each of
the three events gets the matching callback of `tv` appended once if it is non-nil and
nothing otherwise; and the handle of the new widget is stored in the variable `AssignTo`
points to if `AssignTo` is non-nil, all other variables, or all if it is nil, unchanged. -/
theorem Create_configures (tk : Toolkit) (tv : TreeView) (parent : Nat) (vars : Vars)
    (w : walk.TreeView)
    (hnew : tk.NewTreeView parent = Except.ok w)
    (hset : (SetModel tk (atSetModel tv w) tv.Model).1 = none) :
    (tv.Create tk parent vars).err = none ∧
    (∃ w2, (tv.Create tk parent vars).w = some w2 ∧
      w2.handle = w.handle ∧
      w2.model = tv.Model ∧
      w2.currentItemChanged = w.currentItemChanged ++ tv.OnCurrentItemChanged.toList ∧
      w2.itemCollapsed = w.itemCollapsed ++ tv.OnItemCollapsed.toList ∧
      w2.itemExpanded = w.itemExpanded ++ tv.OnItemExpanded.toList) ∧
    (tv.Create tk parent vars).vars =
      (match tv.AssignTo with
       | some r => Function.update vars r (some w.handle)
       | none => vars) := by
  have herr : tk.SetModelErr (atSetModel tv w) tv.Model = none := by
    unfold SetModel at hset
    cases hs : tk.SetModelErr (atSetModel tv w) tv.Model with
    | none => rfl
    | some e => simp [hs] at hset
  simp only [atSetModel] at herr
  cases h1 : tv.OnCurrentItemChanged <;> cases h2 : tv.OnItemCollapsed <;>
    cases h3 : tv.OnItemExpanded <;> cases h4 : tv.AssignTo <;>
    simp [TreeView.Create, hnew, InitWidget, createInit, SetModel, herr, Attach, h1, h2, h3, h4]

/-- Witness for C6: the sample descriptor with a model that binds. -/
theorem Create_configures_witness :
    ((sampleTreeView (some 1)).Create sampleToolkit 0 nilVars).err = none ∧
    ((sampleTreeView (some 1)).Create sampleToolkit 0 nilVars).w =
      some { handle := 7, info := some (sampleTreeView (some 1)).WidgetInfo, model := some 1,
             currentItemChanged := [1], itemCollapsed := [], itemExpanded := [3] } ∧
    ((sampleTreeView (some 1)).Create sampleToolkit 0 nilVars).vars 0 = some 7 :=
  ⟨(Create_configures sampleToolkit (sampleTreeView (some 1)) 0 nilVars sampleWidget
      rfl (by decide)).1, by decide, by decide⟩

end Declarative
